import Mathlib

/-!
Verification of the SecureAI repository's PII-protection specification
against the source code.

The character-masking engine is embedded from the Live Preview logic in
`configuration-dashboard/src/App.tsx` (`renderMaskingStrategies`), the
configuration model and its update/load operations from the same file
(`defaultConfig`, `updateConfig`, `loadConfiguration`).  JavaScript strings
are modelled as `List Char`, JS `number` fields that hold integers as
`Int` (with `Option` for optional fields), and the JS `x || d` idiom
(where `0`, `NaN` and `undefined` are falsy) as explicit functions.
-/

namespace SecureAI

/-- The five masking pattern types of the `MaskingPattern` TS interface. -/
inductive PatternType where
  | show_first
  | show_last
  | show_first_last
  | full_mask
  | custom
deriving DecidableEq, Repr

/-- The `MaskingPattern` TS interface.  `maskChar` is a single character:
the dashboard's mask-character input has `maxLength={1}` and maps the empty
string to `'*'` (`e.target.value || '*'`).  `showFirst`/`showLast` are
optional JS numbers, embedded as `Option Int`; an absent `preserveFormat`
is only ever used through JS truthiness, so it is embedded as `Bool`. -/
structure MaskingPattern where
  type : PatternType
  showFirst : Option Int := none
  showLast : Option Int := none
  maskChar : Char := '*'
  separator : Option Char := none
  preserveFormat : Bool := false
deriving DecidableEq, Repr

/-- JS `x || d` on an optional number, where `undefined` (`none`) and `0`
are falsy.  `NaN` never reaches a stored pattern (the dashboard coerces it
through `parseInt(...) || 0`). -/
def jsOrInt (x : Option Int) (d : Int) : Int :=
  match x with
  | none => d
  | some n => if n = 0 then d else n

/-- Code points matched by the JS regex class `\s`. -/
def jsWhitespaceCodes : List Nat :=
  [0x9, 0xa, 0xb, 0xc, 0xd, 0x20, 0xa0, 0x1680,
   0x2000, 0x2001, 0x2002, 0x2003, 0x2004, 0x2005, 0x2006, 0x2007,
   0x2008, 0x2009, 0x200a, 0x2028, 0x2029, 0x202f, 0x205f, 0x3000, 0xfeff]

/-- Characters matched by the formatting-strip regex `/[-\s()\/]/g` in the
Live Preview (`text.replace(/[-\s()\/]/g, '')`). -/
def isFormatChar (c : Char) : Bool :=
  c = '-' || c = '(' || c = ')' || c = '/' || c.toNat ∈ jsWhitespaceCodes

/-- `text.replace(/[-\s()\/]/g, '')`: remove all formatting characters. -/
def stripFormat (text : List Char) : List Char :=
  text.filter (fun c => !isFormatChar c)

/-- The "Restore format if preserving" walk of the Live Preview: copy
separator characters of `sample` verbatim and consume one character of
`masked` per non-separator character while characters remain. -/
def restoreFormat : List Char → List Char → List Char
  | [], _ => []
  | c :: rest, masked =>
      if c ∈ ['-', ' ', '(', ')', '/'] then
        c :: restoreFormat rest masked
      else
        match masked with
        | [] => restoreFormat rest []
        | m :: ms => m :: restoreFormat rest ms

/-- JS `String.prototype.split` with a single-character separator. -/
def splitChar (sep : Char) : List Char → List (List Char)
  | [] => [[]]
  | c :: cs =>
      let r := splitChar sep cs
      if c = sep then [] :: r else (c :: r.headI) :: r.tail

/-- The character-masking computation of the Live Preview in
`renderMaskingStrategies` (App.tsx).  `sample` is the value being masked.
JS `substring` clamps negative and out-of-range indices, which `Int.toNat`
together with `List.take`/`List.drop` reproduces; `maskChar.repeat n`
becomes `List.replicate` (its argument is non-negative in every branch,
so the JS `RangeError` path is unreachable). -/
def maskPreview (entity : String) (pattern : MaskingPattern) (sample : List Char) : List Char :=
  let maskChar := pattern.maskChar
  let text := if pattern.preserveFormat = true then sample else stripFormat sample
  let textLen : Int := (text.length : Int)
  let masked :=
    match pattern.type with
    | .full_mask => List.replicate textLen.toNat maskChar
    | .show_first =>
        let showFirst := jsOrInt pattern.showFirst 0
        if textLen ≤ showFirst then text
        else text.take showFirst.toNat ++ List.replicate (textLen - showFirst).toNat maskChar
    | .show_last =>
        let showLast := jsOrInt pattern.showLast 0
        if textLen ≤ showLast then text
        else List.replicate (textLen - showLast).toNat maskChar ++ text.drop (textLen - showLast).toNat
    | .show_first_last =>
        let showFirst := jsOrInt pattern.showFirst 0
        let showLast := jsOrInt pattern.showLast 0
        if textLen ≤ showFirst + showLast then text
        else
          let middleLen := textLen - showFirst - showLast
          text.take showFirst.toNat ++ List.replicate middleLen.toNat maskChar
            ++ text.drop (textLen - showLast).toNat
    | .custom =>
        if entity = "EMAIL" then
          match splitChar '@' text with
          | [localPart, domainPart] =>
              let showFirst := jsOrInt pattern.showFirst 1
              let maskedLocal := localPart.take showFirst.toNat
                ++ List.replicate (((localPart.length : Int) - showFirst).toNat) maskChar
              maskedLocal ++ '@' :: domainPart
          | _ => text
        else List.replicate textLen.toNat maskChar
  if pattern.preserveFormat = true ∧ text ≠ sample then restoreFormat sample masked else masked

/-! ## Configuration data model (`ConfigData` in App.tsx)

JS objects used as string-keyed maps (`maskingStrategies`, `roleBasedAccess`)
are embedded as association lists in insertion order; object spread
`{...prev, ...updates}` becomes `mergeAssoc`. -/

/-- The `phiDetection` section.  `confidence` is a JS float configured from
a decimal literal; embedded as a rational. -/
structure PhiDetection where
  enabled : Bool
  confidence : ℚ
  entities : List String
  realTimeDetection : Bool
deriving DecidableEq, Repr

/-- One entry of `maskingStrategies`. -/
structure StrategyConfig where
  enabled : Bool
  pattern : MaskingPattern
  context : List String
  description : Option String := none
deriving DecidableEq, Repr

/-- The `auditSettings` section. -/
structure AuditSettings where
  enabled : Bool
  logLevel : String
  retentionDays : Int
  realTimeAlerts : Bool
deriving DecidableEq, Repr

/-- One entry of `roleBasedAccess`. -/
structure RolePermissions where
  phiAccess : String
  canDecrypt : Bool
  canGeneratePDF : Bool
  allowedEntities : List String
deriving DecidableEq, Repr

/-- The `systemSettings` section. -/
structure SystemSettings where
  apiEndpoint : String
  encryptionKey : String
  syncInterval : Int
  offlineMode : Bool
deriving DecidableEq, Repr

/-- The `ConfigData` TS interface. -/
structure ConfigData where
  phiDetection : PhiDetection
  maskingStrategies : List (String × StrategyConfig)
  auditSettings : AuditSettings
  roleBasedAccess : List (String × RolePermissions)
  systemSettings : SystemSettings
deriving DecidableEq, Repr

/-- Lookup in a JS object embedded as an association list. -/
def lookupAssoc {α : Type} (k : String) (l : List (String × α)) : Option α :=
  (l.find? (fun p => p.1 == k)).map (fun p => p.2)

/-- JS object spread `{...prev, ...upd}`: keys of `prev` keep their position
with values overridden by `upd`; keys only in `upd` are appended in order. -/
def mergeAssoc {α : Type} (prev upd : List (String × α)) : List (String × α) :=
  prev.map (fun p =>
    match lookupAssoc p.1 upd with
    | some v => (p.1, v)
    | none => p)
  ++ upd.filter (fun p => !(prev.any (fun q => q.1 == p.1)))

/-- `defaultConfig.maskingStrategies` from App.tsx, entry by entry. -/
def defaultMaskingStrategies : List (String × StrategyConfig) :=
  [("PERSON",
    { enabled := true,
      pattern := { type := .show_first, showFirst := some 1, showLast := some 0,
                   maskChar := '*', preserveFormat := false },
      context := ["API", "LLM", "LOGS"],
      description := some "Show first initial, mask rest (e.g., J*** S***)" }),
   ("EMAIL",
    { enabled := true,
      pattern := { type := .custom, showFirst := some 1, showLast := some 0,
                   maskChar := '*', separator := some '@', preserveFormat := true },
      context := ["LOGS", "API"],
      description := some "Show first char and domain (e.g., j***@company.com)" }),
   ("PHONE",
    { enabled := true,
      pattern := { type := .show_last, showFirst := some 0, showLast := some 4,
                   maskChar := '*', preserveFormat := true },
      context := ["API", "LLM", "LOGS"],
      description := some "Show last 4 digits (e.g., ***-***-1234)" }),
   ("SSN",
    { enabled := true,
      pattern := { type := .show_last, showFirst := some 0, showLast := some 4,
                   maskChar := '*', preserveFormat := true },
      context := ["API", "LLM"],
      description := some "Show last 4 digits (e.g., ***-**-1234)" }),
   ("CREDIT_CARD",
    { enabled := true,
      pattern := { type := .show_first_last, showFirst := some 4, showLast := some 4,
                   maskChar := '*', preserveFormat := true },
      context := ["DATABASE", "API", "LOGS"],
      description := some "Show first 4 and last 4 (e.g., 1234-****-****-5678)" }),
   ("DATE_OF_BIRTH",
    { enabled := true,
      pattern := { type := .show_last, showLast := some 4, showFirst := some 0,
                   maskChar := '*', preserveFormat := true },
      context := ["LOGS"],
      description := some "Show only year (e.g., **/**/1985)" }),
   ("ADDRESS",
    { enabled := true,
      pattern := { type := .show_last, showLast := some 15, showFirst := some 0,
                   maskChar := '*', preserveFormat := false },
      context := ["LOGS"],
      description := some "Show city/state only" })]

/-- `defaultConfig.roleBasedAccess` from App.tsx. -/
def defaultRoleBasedAccess : List (String × RolePermissions) :=
  [("doctor",
    { phiAccess := "full", canDecrypt := true, canGeneratePDF := true,
      allowedEntities := ["PERSON", "EMAIL", "PHONE", "SSN", "DATE_OF_BIRTH"] }),
   ("nurse",
    { phiAccess := "masked", canDecrypt := false, canGeneratePDF := false,
      allowedEntities := ["PERSON", "EMAIL"] }),
   ("supervisor",
    { phiAccess := "full", canDecrypt := true, canGeneratePDF := true,
      allowedEntities := ["PERSON", "EMAIL", "PHONE", "SSN", "CREDIT_CARD", "DATE_OF_BIRTH"] }),
   ("admin",
    { phiAccess := "full", canDecrypt := true, canGeneratePDF := true,
      allowedEntities := ["PERSON", "EMAIL", "PHONE", "SSN", "CREDIT_CARD", "DATE_OF_BIRTH"] })]

/-- `defaultConfig` from App.tsx. -/
def defaultConfig : ConfigData :=
  { phiDetection :=
      { enabled := true, confidence := 0.6,
        entities := ["PERSON", "EMAIL", "PHONE", "SSN", "CREDIT_CARD",
                     "DATE_OF_BIRTH", "ADDRESS"],
        realTimeDetection := true },
    maskingStrategies := defaultMaskingStrategies,
    auditSettings :=
      { enabled := true, logLevel := "INFO", retentionDays := 90,
        realTimeAlerts := true },
    roleBasedAccess := defaultRoleBasedAccess,
    systemSettings :=
      { apiEndpoint := "http://localhost:8003", encryptionKey := "healthcare-phi-key",
        syncInterval := 5, offlineMode := true } }

/-! ## Configuration update and load operations (App.tsx) -/

/-- The five section names of `ConfigData` (the `keyof ConfigData` type in
`updateConfig(section: keyof ConfigData, updates)`). -/
inductive ConfigSection where
  | phiDetection
  | maskingStrategies
  | auditSettings
  | roleBasedAccess
  | systemSettings
deriving DecidableEq, Repr

/-- Partial update of the `phiDetection` section (keys present in the
`updates` object of `updateConfig`). -/
structure PhiDetectionUpdate where
  enabled : Option Bool := none
  confidence : Option ℚ := none
  entities : Option (List String) := none
  realTimeDetection : Option Bool := none
deriving Repr

/-- Partial update of the `auditSettings` section. -/
structure AuditSettingsUpdate where
  enabled : Option Bool := none
  logLevel : Option String := none
  retentionDays : Option Int := none
  realTimeAlerts : Option Bool := none
deriving Repr

/-- Partial update of the `systemSettings` section. -/
structure SystemSettingsUpdate where
  apiEndpoint : Option String := none
  encryptionKey : Option String := none
  syncInterval : Option Int := none
  offlineMode : Option Bool := none
deriving Repr

/-- An `updates` argument of `updateConfig`, tagged by the section it
addresses; the map-shaped sections take association-list overrides. -/
inductive ConfigUpdate where
  | phiDetectionUpdate (u : PhiDetectionUpdate)
  | maskingStrategiesUpdate (u : List (String × StrategyConfig))
  | auditSettingsUpdate (u : AuditSettingsUpdate)
  | roleBasedAccessUpdate (u : List (String × RolePermissions))
  | systemSettingsUpdate (u : SystemSettingsUpdate)
deriving Repr

/-- The section a `ConfigUpdate` addresses. -/
def sectionOf : ConfigUpdate → ConfigSection
  | .phiDetectionUpdate _ => .phiDetection
  | .maskingStrategiesUpdate _ => .maskingStrategies
  | .auditSettingsUpdate _ => .auditSettings
  | .roleBasedAccessUpdate _ => .roleBasedAccess
  | .systemSettingsUpdate _ => .systemSettings

/-- `{...prev.phiDetection, ...updates}`. -/
def mergePhiDetection (prev : PhiDetection) (u : PhiDetectionUpdate) : PhiDetection :=
  { enabled := u.enabled.getD prev.enabled,
    confidence := u.confidence.getD prev.confidence,
    entities := u.entities.getD prev.entities,
    realTimeDetection := u.realTimeDetection.getD prev.realTimeDetection }

/-- `{...prev.auditSettings, ...updates}`. -/
def mergeAuditSettings (prev : AuditSettings) (u : AuditSettingsUpdate) : AuditSettings :=
  { enabled := u.enabled.getD prev.enabled,
    logLevel := u.logLevel.getD prev.logLevel,
    retentionDays := u.retentionDays.getD prev.retentionDays,
    realTimeAlerts := u.realTimeAlerts.getD prev.realTimeAlerts }

/-- `{...prev.systemSettings, ...updates}`. -/
def mergeSystemSettings (prev : SystemSettings) (u : SystemSettingsUpdate) : SystemSettings :=
  { apiEndpoint := u.apiEndpoint.getD prev.apiEndpoint,
    encryptionKey := u.encryptionKey.getD prev.encryptionKey,
    syncInterval := u.syncInterval.getD prev.syncInterval,
    offlineMode := u.offlineMode.getD prev.offlineMode }

/-- `updateConfig(section, updates)` from App.tsx:
`setConfig(prev => ({...prev, [section]: {...prev[section], ...updates}}))`. -/
def updateConfig (u : ConfigUpdate) (prev : ConfigData) : ConfigData :=
  match u with
  | .phiDetectionUpdate pu =>
      { prev with phiDetection := mergePhiDetection prev.phiDetection pu }
  | .maskingStrategiesUpdate mu =>
      { prev with maskingStrategies := mergeAssoc prev.maskingStrategies mu }
  | .auditSettingsUpdate au =>
      { prev with auditSettings := mergeAuditSettings prev.auditSettings au }
  | .roleBasedAccessUpdate ru =>
      { prev with roleBasedAccess := mergeAssoc prev.roleBasedAccess ru }
  | .systemSettingsUpdate su =>
      { prev with systemSettings := mergeSystemSettings prev.systemSettings su }

/-- `loadConfiguration` from App.tsx: on a successful fetch the parsed body
replaces the configuration via `setConfig(data)` with no validation; on
failure (`!response.ok` or an exception) the current configuration stays. -/
def loadConfiguration (fetchResult : Option ConfigData) (current : ConfigData) : ConfigData :=
  match fetchResult with
  | some data => data
  | none => current

/-- The dashboard's numeric-input coercion `parseInt(e.target.value) || 0`:
the parse result is `none` for `NaN` (non-numeric input), and `0` is falsy. -/
def parseIntOr0 (parsed : Option Int) : Int :=
  match parsed with
  | none => 0
  | some n => if n = 0 then 0 else n

/-- The Show First Characters input handler: it stores
`{...strategy.pattern, showFirst: parseInt(e.target.value) || 0}`. -/
def showFirstInputChange (p : MaskingPattern) (parsed : Option Int) : MaskingPattern :=
  { p with showFirst := some (parseIntOr0 parsed) }

/-- The Can Decrypt toggle handler for a role:
`updateConfig('roleBasedAccess', {...config.roleBasedAccess,
[role]: {...permissions, canDecrypt: e.target.checked}})`. -/
def canDecryptToggle (c : ConfigData) (role : String) (permissions : RolePermissions)
    (checked : Bool) : ConfigData :=
  updateConfig
    (.roleBasedAccessUpdate
      (mergeAssoc c.roleBasedAccess [(role, { permissions with canDecrypt := checked })]))
    c

/-! ## Format-preserving encryption (spec §4.2)

Modelled from the spec: the SDK's FPE cipher implementation is not in the
source tree (only its documented contract in the SDK README and the demo
architecture document).  Per the spec, numeric/date/ID entity types use an
"algebraic FPE": the value is split into a format skeleton (separators,
copied verbatim) and a payload of domain-alphabet characters (decimal
digits), and the payload is transformed by a keyed, length-preserving,
domain-restricted permutation; PERSON-style lookup substitution is a
distinct mechanism outside this claim and is represented by the identity
here. -/

/-- The closed `EntityType` enum of the spec's data model. -/
inductive EntityType where
  | PERSON
  | EMAIL
  | PHONE
  | SSN
  | CREDIT_CARD
  | DATE_OF_BIRTH
  | ADDRESS
  | INSURANCE_ID
  | MEDICAL_RECORD_NUMBER
  | CUSTOM
deriving DecidableEq, Repr

/-- Modelled from the spec: numeric/date/ID entities use algebraic FPE;
PERSON uses keyed lookup substitution, and free-text types have no
algebraic cipher. -/
def usesAlgebraicFPE : EntityType → Bool
  | .PHONE | .SSN | .CREDIT_CARD | .DATE_OF_BIRTH
  | .INSURANCE_ID | .MEDICAL_RECORD_NUMBER => true
  | _ => false

/-- The decimal-digit alphabet of the numeric FPE domain. -/
def digitChars : List Char :=
  ['0', '1', '2', '3', '4', '5', '6', '7', '8', '9']

/-- Modelled from the spec: keyed shift of one payload digit (a keyed
permutation of the digit alphabet; `s` is the key-stream value at this
payload position). -/
def encryptDigit (s : Nat) (c : Char) : Char :=
  digitChars.getD ((c.toNat - 48 + s) % 10) c

/-- Inverse keyed shift of one payload digit. -/
def decryptDigit (s : Nat) (c : Char) : Char :=
  digitChars.getD ((c.toNat - 48 + (10 - s % 10)) % 10) c

/-- Encryption walk: separators are copied verbatim into the skeleton,
payload digits are shifted with a key stream indexed by payload position. -/
def encryptFPEGo (k : Nat) (i : Nat) : List Char → List Char
  | [] => []
  | c :: cs =>
      if c ∈ digitChars then encryptDigit (k + i) c :: encryptFPEGo k (i + 1) cs
      else c :: encryptFPEGo k i cs

/-- Decryption walk, inverse of `encryptFPEGo`. -/
def decryptFPEGo (k : Nat) (i : Nat) : List Char → List Char
  | [] => []
  | c :: cs =>
      if c ∈ digitChars then decryptDigit (k + i) c :: decryptFPEGo k (i + 1) cs
      else c :: decryptFPEGo k i cs

/-- Modelled from the spec: `encryptFPE(value, entityType, key)` for the
algebraic-FPE entity types; other types use a stored lookup table, not the
algebraic cipher. -/
def encryptFPE (value : List Char) (entityType : EntityType) (key : Nat) : List Char :=
  if usesAlgebraicFPE entityType then encryptFPEGo key 0 value else value

/-- Modelled from the spec: `decryptFPE(value, entityType, key)`, inverse of
`encryptFPE` on the algebraic-FPE types. -/
def decryptFPE (value : List Char) (entityType : EntityType) (key : Nat) : List Char :=
  if usesAlgebraicFPE entityType then decryptFPEGo key 0 value else value

/-- Modelled from the spec: a value is valid for an algebraic-FPE type when
every character is either a payload digit or a non-alphanumeric separator
of the format skeleton. -/
def validFPEValue (value : List Char) (entityType : EntityType) : Bool :=
  usesAlgebraicFPE entityType
    && value.all (fun c => c ∈ digitChars || !c.isAlphanum)

/-! ## Concrete values used in the scenario theorems -/

/-- The default CREDIT_CARD pattern: `show_first_last(4,4)`, `'*'`,
`preserveFormat=true`. -/
def creditCardPattern : MaskingPattern :=
  { type := .show_first_last, showFirst := some 4, showLast := some 4,
    maskChar := '*', preserveFormat := true }

/-- The default SSN pattern: `show_last(4)`, `'*'`, `preserveFormat=true`. -/
def ssnPattern : MaskingPattern :=
  { type := .show_last, showFirst := some 0, showLast := some 4,
    maskChar := '*', preserveFormat := true }

/-- The default PHONE pattern: `show_last(4)`, `'*'`, `preserveFormat=true`. -/
def phonePattern : MaskingPattern :=
  { type := .show_last, showFirst := some 0, showLast := some 4,
    maskChar := '*', preserveFormat := true }

/-- The default EMAIL pattern: `custom`, showFirst 1, `'*'`, separator `'@'`,
`preserveFormat=true`. -/
def emailPattern : MaskingPattern :=
  { type := .custom, showFirst := some 1, showLast := some 0,
    maskChar := '*', separator := some '@', preserveFormat := true }

/-- The default permissions of the `nurse` role. -/
def nurseDefaultPermissions : RolePermissions :=
  { phiAccess := "masked", canDecrypt := false, canGeneratePDF := false,
    allowedEntities := ["PERSON", "EMAIL"] }

/-- A backend configuration equal to the default one except that the SSN
strategy's `showLast` is the invalid value `-2`. -/
def invalidShowLastConfig : ConfigData :=
  { defaultConfig with
      maskingStrategies :=
        mergeAssoc defaultConfig.maskingStrategies
          [("SSN",
            { enabled := true,
              pattern := { type := .show_last, showFirst := some 0, showLast := some (-2),
                           maskChar := '*', preserveFormat := true },
              context := ["API", "LLM"],
              description := some "Show last 4 digits (e.g., ***-**-1234)" })] }

/-- The SSN pattern of `invalidShowLastConfig`. -/
def invalidShowLastPattern : MaskingPattern :=
  { type := .show_last, showFirst := some 0, showLast := some (-2),
    maskChar := '*', preserveFormat := true }

/-- A `show_first_last` pattern with a negative `showFirst`. -/
def negativeShowFirstPattern : MaskingPattern :=
  { type := .show_first_last, showFirst := some (-2), showLast := some 0,
    maskChar := '*', preserveFormat := true }

/-- An update addressing only the `auditSettings` section (the audit
enabled-toggle handler). -/
def auditToggleUpdate : ConfigUpdate :=
  .auditSettingsUpdate { enabled := some false }

/-!
# Theorems

Helper lemmas first, then one theorem per claim (with witnesses and
counterexamples where applicable).
-/

/-- `jsOrInt` of a non-negative optional and a non-negative default is
non-negative. -/
theorem jsOrInt_nonneg {o : Option Int} {d : Int}
    (h : ∀ n ∈ o, 0 ≤ n) (hd : 0 ≤ d) : 0 ≤ jsOrInt o d := by
  cases o with
  | none => exact hd
  | some n =>
      have hn : 0 ≤ n := h n (by simp)
      by_cases h0 : n = 0
      · simp [jsOrInt, h0, hd]
      · simp [jsOrInt, h0, hn]

/-- Shifting a digit depends only on the key stream value modulo 10. -/
theorem encryptDigit_mod (s : Nat) (c : Char) :
    encryptDigit s c = encryptDigit (s % 10) c := by
  unfold encryptDigit
  have h : (c.toNat - 48 + s) % 10 = (c.toNat - 48 + s % 10) % 10 := by omega
  rw [h]

/-- Unshifting a digit depends only on the key stream value modulo 10. -/
theorem decryptDigit_mod (s : Nat) (c : Char) :
    decryptDigit s c = decryptDigit (s % 10) c := by
  unfold decryptDigit
  have h : (c.toNat - 48 + (10 - s % 10)) % 10
      = (c.toNat - 48 + (10 - s % 10 % 10)) % 10 := by omega
  rw [h]

/-- Exhaustive check of the digit round trip for reduced key stream values. -/
theorem digit_roundtrip_aux :
    ∀ m < 10, ∀ c ∈ digitChars, decryptDigit m (encryptDigit m c) = c := by decide

/-- Exhaustive check that shifting keeps digits inside the digit alphabet. -/
theorem encryptDigit_mem_aux :
    ∀ m < 10, ∀ c ∈ digitChars, encryptDigit m c ∈ digitChars := by decide

/-- The keyed digit shift is inverted by its unshift. -/
theorem decryptDigit_encryptDigit (s : Nat) (c : Char) (h : c ∈ digitChars) :
    decryptDigit s (encryptDigit s c) = c := by
  rw [encryptDigit_mod, decryptDigit_mod]
  exact digit_roundtrip_aux (s % 10) (by omega) c h

/-- The keyed digit shift stays inside the digit alphabet. -/
theorem encryptDigit_mem (s : Nat) (c : Char) (h : c ∈ digitChars) :
    encryptDigit s c ∈ digitChars := by
  rw [encryptDigit_mod]
  exact encryptDigit_mem_aux (s % 10) (by omega) c h

/-- The encryption walk is inverted by the decryption walk. -/
theorem decryptFPEGo_encryptFPEGo (k : Nat) (v : List Char) :
    ∀ i, decryptFPEGo k i (encryptFPEGo k i v) = v := by
  induction v with
  | nil => intro i; rfl
  | cons c cs ih =>
      intro i
      by_cases hc : c ∈ digitChars
      · simp only [encryptFPEGo, if_pos hc]
        simp only [decryptFPEGo, if_pos (encryptDigit_mem (k + i) c hc)]
        rw [decryptDigit_encryptDigit (k + i) c hc, ih]
      · simp only [encryptFPEGo, if_neg hc]
        simp only [decryptFPEGo, if_neg hc]
        rw [ih]

/-- C2: for every entity type using algebraic FPE, every valid value of
that type and every key, `decryptFPE` inverts `encryptFPE` (round-trip
law). -/
theorem fpe_round_trip (v : List Char) (t : EntityType) (k : Nat)
    (halg : usesAlgebraicFPE t = true) (_hvalid : validFPEValue v t = true) :
    decryptFPE (encryptFPE v t k) t k = v := by
  unfold encryptFPE decryptFPE
  rw [if_pos halg, if_pos halg]
  exact decryptFPEGo_encryptFPEGo k v 0

/-- Witness for C2 at the SSN value `123-45-6789` with key 7. -/
theorem fpe_round_trip_witness :
    usesAlgebraicFPE EntityType.SSN = true ∧
    validFPEValue "123-45-6789".toList EntityType.SSN = true ∧
    decryptFPE (encryptFPE "123-45-6789".toList EntityType.SSN 7) EntityType.SSN 7
      = "123-45-6789".toList :=
  ⟨rfl, by decide, fpe_round_trip "123-45-6789".toList EntityType.SSN 7 rfl (by decide)⟩

/-- `splitChar` always returns at least one part. -/
theorem splitChar_ne_nil (sep : Char) (l : List Char) : splitChar sep l ≠ [] := by
  cases l with
  | nil => simp [splitChar]
  | cons c cs =>
      simp only [splitChar]
      split <;> simp

/-- `splitChar` returns a head part and a list of further parts. -/
theorem splitChar_shape (sep : Char) (l : List Char) :
    ∃ h t, splitChar sep l = h :: t := by
  cases hsp : splitChar sep l with
  | nil => exact absurd hsp (splitChar_ne_nil sep l)
  | cons h t => exact ⟨h, t, rfl⟩

/-- The part lengths of `splitChar` account for every character and every
separator of the input. -/
theorem splitChar_length_sum (sep : Char) (l : List Char) :
    ((splitChar sep l).map List.length).sum + (splitChar sep l).length
      = l.length + 1 := by
  induction l with
  | nil => rfl
  | cons c cs ih =>
      obtain ⟨h, t, hr⟩ := splitChar_shape sep cs
      rw [hr] at ih
      simp only [List.map_cons, List.sum_cons, List.length_cons] at ih
      simp only [splitChar, hr]
      split
      · simp only [List.map_cons, List.sum_cons, List.length_cons, List.length_nil]
        omega
      · simp only [List.headI, List.tail_cons, List.map_cons, List.sum_cons,
          List.length_cons]
        omega

/-- The number of parts of `splitChar` is the separator count plus one. -/
theorem splitChar_length_eq_count (sep : Char) (l : List Char) :
    (splitChar sep l).length = l.count sep + 1 := by
  induction l with
  | nil => rfl
  | cons c cs ih =>
      obtain ⟨h, t, hr⟩ := splitChar_shape sep cs
      rw [hr] at ih
      simp only [List.length_cons] at ih
      simp only [splitChar, hr]
      split
      · rename_i hc
        subst hc
        simp only [List.length_cons, List.count_cons, beq_iff_eq, eq_self_iff_true,
          if_true]
        omega
      · rename_i hc
        simp only [List.headI, List.tail_cons, List.length_cons,
          List.count_cons, beq_iff_eq, if_neg hc]
        omega

/-- C1: with `preserveFormat=true` the Live Preview masking does NOT leave
separators untouched — the strip step is skipped when preserving, so the
restore walk's guard `text !== sample` is never true and separators are
masked along with meaningful characters.  Evaluating the code at the
claim's own scenarios: `4532-1234-5678-9012` under the default
`show_first_last(4,4)` credit-card pattern gives `4532***********9012`
(not `4532-****-****-9012`), and `123-45-6789` under the default
`show_last(4)` SSN pattern gives `*******6789` (not `***-**-6789`),
contradicting the in-code description strings of `defaultConfig`. -/
theorem preserve_format_masks_separators :
    (lookupAssoc "CREDIT_CARD" defaultConfig.maskingStrategies).map
        (fun s => s.pattern) = some creditCardPattern ∧
    (lookupAssoc "SSN" defaultConfig.maskingStrategies).map
        (fun s => s.pattern) = some ssnPattern ∧
    maskPreview "CREDIT_CARD" creditCardPattern "4532-1234-5678-9012".toList
      = "4532***********9012".toList ∧
    "4532***********9012".toList ≠ "4532-****-****-9012".toList ∧
    maskPreview "SSN" ssnPattern "123-45-6789".toList = "*******6789".toList ∧
    "*******6789".toList ≠ "***-**-6789".toList := by
  refine ⟨rfl, rfl, by decide, by decide, by decide, by decide⟩

/-- C3 counterexample: masking `john.doe@company.com` with the default
custom email pattern (showFirst 1) does not return `j***@company.com`. -/
theorem email_scenario_counterexample :
    maskPreview "EMAIL" emailPattern "john.doe@company.com".toList
      ≠ "j***@company.com".toList := by decide

/-- C3 amended: masking `john.doe@company.com` with the default custom
email pattern returns `j*******@company.com` — the first local-part
character kept, one mask character per remaining local-part character, and
the domain verbatim. -/
theorem email_scenario_actual :
    (lookupAssoc "EMAIL" defaultConfig.maskingStrategies).map
        (fun s => s.pattern) = some emailPattern ∧
    maskPreview "EMAIL" emailPattern "john.doe@company.com".toList
      = "j*******@company.com".toList := by
  refine ⟨rfl, by decide⟩

/-- C4 counterexample: with `preserveFormat=false` the value is
separator-stripped before the length test, so a short value containing a
separator is NOT returned unchanged: `a-b` (length 3) under
`show_first(3)` comes back as `ab`. -/
theorem short_value_counterexample :
    ("a-b".toList.length ≤ 3) ∧
    maskPreview "PERSON"
        { type := .show_first, showFirst := some 3, showLast := some 0,
          maskChar := '*', preserveFormat := false }
        "a-b".toList ≠ "a-b".toList := by
  refine ⟨by decide, by decide⟩

/-- C4 amended: when `preserveFormat=true` (no separator stripping),
`show_first(n)` returns the value unmasked whenever its length is at most
`n`, and `show_first_last(f,l)` returns it unmasked whenever `f+l` is at
least its length. -/
theorem short_value_unmasked (entity : String) (p : MaskingPattern) (v : List Char)
    (hpf : p.preserveFormat = true) :
    (p.type = PatternType.show_first →
      (v.length : Int) ≤ jsOrInt p.showFirst 0 → maskPreview entity p v = v) ∧
    (p.type = PatternType.show_first_last →
      (v.length : Int) ≤ jsOrInt p.showFirst 0 + jsOrInt p.showLast 0 →
        maskPreview entity p v = v) := by
  constructor
  · intro ht hle
    unfold maskPreview
    simp [hpf, ht, hle]
  · intro ht hle
    unfold maskPreview
    simp [hpf, ht, hle]

/-- Witness for the amended C4 at `abc` with `show_first(5)` and `abcd`
with `show_first_last(2,2)`. -/
theorem short_value_unmasked_witness :
    maskPreview "PERSON"
        { type := .show_first, showFirst := some 5, showLast := some 0,
          maskChar := '*', preserveFormat := true }
        "abc".toList = "abc".toList ∧
    maskPreview "CREDIT_CARD"
        { type := .show_first_last, showFirst := some 2, showLast := some 2,
          maskChar := '*', preserveFormat := true }
        "abcd".toList = "abcd".toList :=
  ⟨(short_value_unmasked "PERSON" _ _ rfl).1 rfl (by decide),
   (short_value_unmasked "CREDIT_CARD" _ _ rfl).2 rfl (by decide)⟩

/-- Stripping formatting from a run of a non-format character changes
nothing. -/
theorem stripFormat_replicate (n : Nat) (c : Char) (h : isFormatChar c = false) :
    stripFormat (List.replicate n c) = List.replicate n c := by
  induction n with
  | zero => rfl
  | succ n ih =>
      simp only [stripFormat] at ih ⊢
      simp [List.replicate_succ, List.filter_cons, h, ih]

/-- A `full_mask` result is a run of the mask character whose length is
that of the (possibly separator-stripped) text. -/
theorem maskPreview_full_mask (entity : String) (p : MaskingPattern) (v : List Char)
    (ht : p.type = PatternType.full_mask) :
    maskPreview entity p v
      = List.replicate
          (if p.preserveFormat = true then v else stripFormat v).length p.maskChar := by
  unfold maskPreview
  by_cases hpf : p.preserveFormat = true
  · simp [ht, hpf]
  · simp [ht, hpf]

/-- C6 counterexample: `full_mask` is not idempotent for every pattern —
with mask character `'-'` and `preserveFormat=false`, masking `ab` gives
`--`, and masking that strips the dashes and returns the empty string. -/
theorem full_mask_idempotent_counterexample :
    maskPreview "PERSON"
        { type := .full_mask, showFirst := some 0, showLast := some 0,
          maskChar := '-', preserveFormat := false }
        (maskPreview "PERSON"
          { type := .full_mask, showFirst := some 0, showLast := some 0,
            maskChar := '-', preserveFormat := false }
          "ab".toList)
      ≠ maskPreview "PERSON"
          { type := .full_mask, showFirst := some 0, showLast := some 0,
            maskChar := '-', preserveFormat := false }
          "ab".toList := by decide

/-- C6 amended: `full_mask` masking is idempotent whenever the mask
character is not itself one of the stripped formatting characters. -/
theorem full_mask_idempotent (entity : String) (p : MaskingPattern) (v : List Char)
    (ht : p.type = PatternType.full_mask) (hmc : isFormatChar p.maskChar = false) :
    maskPreview entity p (maskPreview entity p v) = maskPreview entity p v := by
  rw [maskPreview_full_mask entity p v ht,
      maskPreview_full_mask entity p _ ht]
  by_cases hpf : p.preserveFormat = true
  · simp [hpf]
  · simp [hpf, stripFormat_replicate _ _ hmc]

/-- Witness for the amended C6: the default `'*'` full mask on `123` is
idempotent. -/
theorem full_mask_idempotent_witness :
    maskPreview "SSN"
        { type := .full_mask, showFirst := some 0, showLast := some 0,
          maskChar := '*', preserveFormat := false }
        (maskPreview "SSN"
          { type := .full_mask, showFirst := some 0, showLast := some 0,
            maskChar := '*', preserveFormat := false }
          "123".toList)
      = maskPreview "SSN"
          { type := .full_mask, showFirst := some 0, showLast := some 0,
            maskChar := '*', preserveFormat := false }
          "123".toList :=
  full_mask_idempotent "SSN" _ "123".toList rfl (by decide)

/-- C9: under a custom email pattern with `preserveFormat=true`, any value
that does not contain exactly one `'@'` is returned completely unchanged
(the split yields a part count different from 2 and the value passes
through in the clear). -/
theorem custom_email_passthrough (p : MaskingPattern) (v : List Char)
    (ht : p.type = PatternType.custom) (hpf : p.preserveFormat = true)
    (hat : v.count '@' ≠ 1) :
    maskPreview "EMAIL" p v = v := by
  have hlen : (splitChar '@' v).length ≠ 2 := by
    rw [splitChar_length_eq_count]
    omega
  unfold maskPreview
  simp only [ht, hpf, eq_self_iff_true, if_true, ne_eq, not_true_eq_false,
    and_false, if_false, true_and]
  split
  · rename_i localPart domainPart heq
    have h2 : (splitChar '@' v).length = 2 := by rw [heq]; rfl
    exact absurd h2 hlen
  · rfl

/-- Witness for C9 at `ab@cd@ef` (two `'@'` characters) under the default
email pattern. -/
theorem custom_email_passthrough_witness :
    emailPattern.type = PatternType.custom ∧
    emailPattern.preserveFormat = true ∧
    "ab@cd@ef".toList.count '@' ≠ 1 ∧
    maskPreview "EMAIL" emailPattern "ab@cd@ef".toList = "ab@cd@ef".toList :=
  ⟨rfl, rfl, by decide,
   custom_email_passthrough emailPattern "ab@cd@ef".toList rfl rfl (by decide)⟩

/-- C5 counterexample: the length invariant fails for a pattern with a
negative `showFirst` (which the loader accepts, see the C8 theorems):
`show_first_last(-2,0)` with `preserveFormat=true` maps the length-1 value
`a` to `***`. -/
theorem masking_length_invariant_counterexample :
    negativeShowFirstPattern.preserveFormat = true ∧
    (maskPreview "PERSON" negativeShowFirstPattern ['a']).length
      ≠ ([ 'a' ] : List Char).length := by
  refine ⟨rfl, by decide⟩

/-- C5 amended: for every pattern whose `showFirst`/`showLast` are
non-negative (as the dashboard's inputs enforce), masking with
`preserveFormat=true` preserves the value's length. -/
theorem masking_length_invariant (entity : String) (p : MaskingPattern) (v : List Char)
    (hpf : p.preserveFormat = true)
    (hf : ∀ n ∈ p.showFirst, 0 ≤ n) (hl : ∀ n ∈ p.showLast, 0 ≤ n) :
    (maskPreview entity p v).length = v.length := by
  have hf0 : 0 ≤ jsOrInt p.showFirst 0 := jsOrInt_nonneg hf le_rfl
  have hf1 : 0 ≤ jsOrInt p.showFirst 1 := jsOrInt_nonneg hf (by omega)
  have hl0 : 0 ≤ jsOrInt p.showLast 0 := jsOrInt_nonneg hl le_rfl
  unfold maskPreview
  simp only [hpf, eq_self_iff_true, if_true, ne_eq, not_true_eq_false,
    and_false, if_false, true_and]
  split
  · -- full_mask
    simp only [List.length_replicate]
    omega
  · -- show_first
    split
    · rfl
    · rename_i hlt
      simp only [List.length_append, List.length_take, List.length_replicate]
      omega
  · -- show_last
    split
    · rfl
    · rename_i hlt
      simp only [List.length_append, List.length_drop, List.length_replicate]
      omega
  · -- show_first_last
    split
    · rfl
    · rename_i hlt
      simp only [List.length_append, List.length_take, List.length_drop,
        List.length_replicate]
      omega
  · -- custom
    by_cases he : entity = "EMAIL"
    · simp only [he, eq_self_iff_true, if_true]
      split
      · rename_i localPart domainPart heq
        have hsum := splitChar_length_sum '@' v
        rw [heq] at hsum
        simp only [List.map_cons, List.map_nil, List.sum_cons, List.sum_nil,
          List.length_cons, List.length_nil] at hsum
        simp only [List.length_append, List.length_take, List.length_replicate,
          List.length_cons]
        omega
      · rfl
    · simp [he]

/-- Witness for the amended C5 at the default PHONE pattern and
`555-123-4567`. -/
theorem masking_length_invariant_witness :
    (maskPreview "PHONE" phonePattern "555-123-4567".toList).length
      = "555-123-4567".toList.length :=
  masking_length_invariant "PHONE" phonePattern "555-123-4567".toList rfl
    (by intro n hn; simp [phonePattern] at hn; omega)
    (by intro n hn; simp [phonePattern] at hn; omega)

/-- C7 counterexample: one Can Decrypt toggle on the `nurse` role (whose
access level is `masked` in the default configuration) yields a reachable
state with `canDecrypt=true` and `phiAccess=masked` — the dashboard's
update operations do not preserve the invariant. -/
theorem rbac_invariant_counterexample :
    lookupAssoc "nurse" defaultConfig.roleBasedAccess = some nurseDefaultPermissions ∧
    (lookupAssoc "nurse"
        (canDecryptToggle defaultConfig "nurse" nurseDefaultPermissions true).roleBasedAccess).map
      (fun perms => (perms.canDecrypt, perms.phiAccess)) = some (true, "masked") := by
  refine ⟨rfl, rfl⟩

/-- C7 amended: the invariant `canDecrypt=true → phiAccess=full` holds for
every role of the default configuration (but is not preserved by the
dashboard's update operations). -/
theorem rbac_invariant_default :
    defaultConfig.roleBasedAccess.all
      (fun rp => !rp.2.canDecrypt || rp.2.phiAccess == "full") = true := by decide

/-- C8 counterexample: `loadConfiguration` performs no validation — a
fetched configuration whose SSN `showLast` is `-2` replaces the current
configuration verbatim, and the mask operation then runs with the negative
`showLast` (here turning the 11-character SSN sample into 13 mask
characters). -/
theorem config_load_no_validation_counterexample :
    loadConfiguration (some invalidShowLastConfig) defaultConfig = invalidShowLastConfig ∧
    (lookupAssoc "SSN" invalidShowLastConfig.maskingStrategies).map
      (fun s => s.pattern) = some invalidShowLastPattern ∧
    maskPreview "SSN" invalidShowLastPattern "123-45-6789".toList
      = "*************".toList := by
  refine ⟨rfl, rfl, by decide⟩

/-- C8 amended: configuration load rejects nothing — any fetched
configuration becomes the active one unchanged; non-numeric input in the
dashboard's numeric fields is coerced to `0` at update time by
`parseInt(...) || 0` (and a negative parse result is stored as-is). -/
theorem config_load_accepts_anything :
    (∀ (d current : ConfigData), loadConfiguration (some d) current = d) ∧
    parseIntOr0 none = 0 ∧
    parseIntOr0 (some (-3)) = -3 ∧
    (∀ (p : MaskingPattern),
      (showFirstInputChange p none).showFirst = some 0) :=
  ⟨fun _ _ => rfl, rfl, rfl, fun _ => rfl⟩

/-- C10: `updateConfig(section, updates)` changes at most the addressed
section — every other section of the configuration is unchanged. -/
theorem updateConfig_frame (u : ConfigUpdate) (c : ConfigData) :
    (sectionOf u ≠ ConfigSection.phiDetection →
      (updateConfig u c).phiDetection = c.phiDetection) ∧
    (sectionOf u ≠ ConfigSection.maskingStrategies →
      (updateConfig u c).maskingStrategies = c.maskingStrategies) ∧
    (sectionOf u ≠ ConfigSection.auditSettings →
      (updateConfig u c).auditSettings = c.auditSettings) ∧
    (sectionOf u ≠ ConfigSection.roleBasedAccess →
      (updateConfig u c).roleBasedAccess = c.roleBasedAccess) ∧
    (sectionOf u ≠ ConfigSection.systemSettings →
      (updateConfig u c).systemSettings = c.systemSettings) := by
  cases u <;>
    refine ⟨fun h => ?_, fun h => ?_, fun h => ?_, fun h => ?_, fun h => ?_⟩ <;>
    first
      | rfl
      | exact absurd rfl h

/-- Witness for C10: an audit-settings toggle leaves the PHI detection and
role-based access sections of the default configuration unchanged. -/
theorem updateConfig_frame_witness :
    (updateConfig auditToggleUpdate defaultConfig).phiDetection
      = defaultConfig.phiDetection ∧
    (updateConfig auditToggleUpdate defaultConfig).roleBasedAccess
      = defaultConfig.roleBasedAccess :=
  ⟨(updateConfig_frame auditToggleUpdate defaultConfig).1 (by decide),
   (updateConfig_frame auditToggleUpdate defaultConfig).2.2.2.1 (by decide)⟩

end SecureAI
